import Mathlib

/-!
Verification of the session/cache consistency layer of the propertyhub
dashboard against its specification.

The development shallowly embeds the relevant source functions:

* the Session Manager (AuthContext: handleSessionChange, the visibility
  handler, hasPermission, fetchOrCreateUserData);
* the per-entity TTL caches (transactionService, the cached property and
  reservation services);
* the calendar-date wire utilities (utils/date.ts: parseDateOnly,
  formatDateOnly) and the partial-update patch builders (updateAccessCode,
  updateReservation).

Asynchronous code is modelled by splitting each awaiting function at its
suspension points into explicit phases over an explicit state record, and
remote calls are modelled by oracle arguments carrying each call's outcome,
so that any completion interleaving can be replayed as a sequence of pure
steps.
-/

namespace PropertyHub

/-! ## Roles and profiles (src/unnamed/part_005 types, AuthContext) -/

/-- UserRole from the types module: admin, manager, viewer. -/
inductive UserRole where
  | admin
  | manager
  | viewer
deriving DecidableEq, Repr

/-- The roleHierarchy table inside hasPermission: admin 3, manager 2, viewer 1. -/
def roleHierarchy : UserRole → Nat
  | .admin => 3
  | .manager => 2
  | .viewer => 1

/-- User record (the Profile of the spec): mapUserData target shape.
Timestamps are epoch milliseconds. -/
structure Profile where
  id : String
  email : String
  displayName : String
  role : UserRole
  createdAt : Int
  updatedAt : Int
deriving DecidableEq, Repr

/-- Wire row of the users table (snake_case columns). -/
structure UserRow where
  id : String
  email : String
  display_name : String
  role : UserRole
  created_at : Int
  updated_at : Int
deriving DecidableEq, Repr

/-- mapUserData from AuthContext: wire row to in-memory User. -/
def mapUserData (data : UserRow) : Profile :=
  { id := data.id
    email := data.email
    displayName := data.display_name
    role := data.role
    createdAt := data.created_at
    updatedAt := data.updated_at }

/-- The provider-issued subject: a Supabase user. user_metadata.display_name
and email are optional (absent keys are modelled as none). -/
structure SUser where
  id : String
  email : Option String
  metaDisplayName : Option String
deriving DecidableEq, Repr

/-- Session: token bundle with its subject. Only the user field is ever read
by the session manager; the token is opaque payload. -/
structure Session where
  user : SUser
  accessToken : String
deriving DecidableEq, Repr

/-- hasPermission from AuthContext (lines 165-175), as a pure function of the
cached userData. -/
def hasPermission (userData : Option Profile) (requiredRole : UserRole) : Bool :=
  match userData with
  | none => false
  | some u => decide (roleHierarchy requiredRole ≤ roleHierarchy u.role)

/-! ## Session Manager state and reconciliation

The AuthProvider state: React state cells (session, currentUser, userData)
plus the two refs used to short-circuit redundant resolution.
-/

structure AuthState where
  session : Option Session
  currentUser : Option SUser
  userData : Option Profile
  currentUserIdRef : Option String
  userDataRef : Option Profile
deriving DecidableEq, Repr

/-- The initial provider state: everything empty, as on mount. -/
def initialAuthState : AuthState :=
  { session := none, currentUser := none, userData := none
    currentUserIdRef := none, userDataRef := none }

/-- Synchronous prefix of handleSessionChange (AuthContext lines 180-206), up
to the await of fetchOrCreateUserData.  Returns the updated state and, when a
profile fetch was started, the user being resolved (none when the call
completed synchronously: unmounted, signed-out branch, or the same-user
de-duplication branch). -/
def handleSessionChangePhase1 (isMounted : Bool) (s : AuthState)
    (nextSession : Option Session) : AuthState × Option SUser :=
  if isMounted = false then (s, none)
  else
    match nextSession with
    | some sess =>
        let s1 := { s with session := some sess, currentUser := some sess.user }
        if s.currentUserIdRef = some sess.user.id ∧ s.userDataRef.isSome = true then
          (s1, none)
        else
          ({ s1 with currentUserIdRef := some sess.user.id }, some sess.user)
    | none =>
        ({ s with session := none, currentUser := none, userData := none
                  currentUserIdRef := none, userDataRef := none }, none)

/-- Continuation of handleSessionChange after fetchOrCreateUserData resolves
(AuthContext lines 196-200): commit the resolved data if still mounted.  The
only guard is isMounted; the subject id is not re-checked. -/
def commitResolution (isMounted : Bool) (s : AuthState)
    (data : Option Profile) : AuthState :=
  if isMounted then { s with userData := data, userDataRef := data } else s

/-- The visibility handler body once the document is visible and the
getSession pull has resolved (AuthContext lines 236-256).  freshSession is the
pulled session.  Returns the new state and any profile fetch started by the
nested handleSessionChange call. -/
def handleVisibilityVisible (isMounted : Bool) (s : AuthState)
    (freshSession : Option Session) : AuthState × Option SUser :=
  if isMounted = false then (s, none)
  else
    match freshSession with
    | some fs =>
        let s1 := { s with session := some fs, currentUser := some fs.user }
        if s.currentUserIdRef ≠ some fs.user.id then
          handleSessionChangePhase1 true s1 (some fs)
        else (s1, none)
    | none =>
        if s.currentUserIdRef.isSome = true then
          ({ s with session := none, currentUser := none, userData := none
                    currentUserIdRef := none, userDataRef := none }, none)
        else (s, none)

/-- A sequential run of handleSessionChange over a list of provider events,
each call completing (or short-circuiting) before the next starts.  Returns
the final state and the number of profile fetches started. -/
def reconcileSeq : AuthState → List (Option Session) → AuthState × Nat
  | s, [] => (s, 0)
  | s, e :: es =>
      let r := handleSessionChangePhase1 true s e
      let rest := reconcileSeq r.1 es
      (rest.1, (if r.2.isSome then 1 else 0) + rest.2)

/-! ## Profile Resolver (fetchOrCreateUserData, AuthContext lines 65-118) -/

/-- Truthiness of a possibly absent JS string: undefined and the empty string
are falsy. -/
def jsTruthyStr : Option String → Bool
  | none => false
  | some s => decide (s ≠ "")

/-- JS logical-or over possibly absent strings, as used in the display-name
derivation chain. -/
def jsOrStr (a b : Option String) : Option String :=
  if jsTruthyStr a then a else b

/-- The local part of an email: email.split at the at-sign, first element. -/
def emailLocalPart (email : String) : String :=
  (email.splitOn "@").headD email

/-- Display-name derivation (AuthContext line 80):
user_metadata.display_name, else the local part of the email, else the
fallback literal. -/
def deriveDisplayName (u : SUser) : String :=
  match jsOrStr u.metaDisplayName (u.email.map emailLocalPart) with
  | some s => if s ≠ "" then s else "Usuário"
  | none => "Usuário"

/-- Outcome of the profile select call, as discriminated by the source:
a row, the PGRST116 no-rows code, an error whose message mentions AbortError,
any other error object, a thrown DOMException named AbortError, or any other
thrown value. -/
inductive FetchUserOutcome where
  | found (row : UserRow)
  | noRows
  | abortError
  | otherError (msg : String)
  | thrownAbort
  | thrownOther (msg : String)
deriving DecidableEq, Repr

/-- Outcome of the profile insert call. -/
inductive InsertUserOutcome where
  | inserted (row : UserRow)
  | insertError (msg : String)
deriving DecidableEq, Repr

/-- The row the source sends to the insert call when no profile row exists.
The source passes user.email through a non-null assertion, which is
type-level only, so the optional value is forwarded unchanged. -/
structure InsertUserRequest where
  id : String
  email : Option String
  display_name : String
  role : UserRole
deriving DecidableEq, Repr

/-- The insert request built on the PGRST116 branch (AuthContext lines
82-91): the subject id, its email, the derived display name, and role
viewer. -/
def insertReqFor (u : SUser) : InsertUserRequest :=
  { id := u.id, email := u.email
    display_name := deriveDisplayName u, role := .viewer }

/-- fetchOrCreateUserData (AuthContext lines 65-118).  The remote calls are
oracles: fetch is the outcome of the select, insertResp maps the issued
insert request to its outcome.  Returns the resolved profile (none models
every logged-and-swallowed failure path) together with the insert request
that was issued, if any. -/
def fetchOrCreateUserData (u : SUser) (fetch : FetchUserOutcome)
    (insertResp : InsertUserRequest → InsertUserOutcome) :
    Option Profile × Option InsertUserRequest :=
  match fetch with
  | .found row => (some (mapUserData row), none)
  | .noRows =>
      match insertResp (insertReqFor u) with
      | .inserted newRow => (some (mapUserData newRow), some (insertReqFor u))
      | .insertError _ => (none, some (insertReqFor u))
  | .abortError => (none, none)
  | .otherError _ => (none, none)
  | .thrownAbort => (none, none)
  | .thrownOther _ => (none, none)

/-! ## Entity records (src/unnamed/part_005 types)

Numeric payload fields are modelled as integers and Date payload fields as
epoch milliseconds; the cache layer stores, scans and filters records but
never computes with these values.  The category union of expense and income
category literals is modelled as a plain string.  Missing keys of optional
fields are none.
-/

inductive PropertyType where
  | apartment
  | house
  | studio
  | villa
  | cabin
  | other
deriving DecidableEq, Repr

structure Property where
  id : String
  name : String
  address : String
  city : String
  state : String
  country : String
  zipCode : String
  propType : PropertyType
  bedrooms : Int
  bathrooms : Int
  maxGuests : Int
  amenities : List String
  description : String
  basePrice : Int
  cleaningFee : Int
  images : List String
  isActive : Bool
  ownerId : String
  createdAt : Int
  updatedAt : Int
deriving DecidableEq, Repr

inductive ReservationStatus where
  | pending
  | confirmed
  | checkedIn
  | checkedOut
  | cancelled
deriving DecidableEq, Repr

inductive ReservationSource where
  | airbnb
  | booking
  | vrbo
  | direct
  | other
deriving DecidableEq, Repr

structure Reservation where
  id : String
  propertyId : String
  guestName : String
  guestEmail : String
  guestPhone : String
  checkIn : Int
  checkOut : Int
  numberOfGuests : Int
  totalAmount : Int
  cleaningFee : Int
  platformFee : Int
  status : ReservationStatus
  source : ReservationSource
  notes : String
  createdAt : Int
  updatedAt : Int
deriving DecidableEq, Repr

inductive TransactionType where
  | income
  | expense
deriving DecidableEq, Repr

structure Transaction where
  id : String
  propertyId : String
  reservationId : Option String
  txType : TransactionType
  category : String
  amount : Int
  description : String
  date : Int
  createdAt : Int
  updatedAt : Int
deriving DecidableEq, Repr

/-! ## Entity caches

Each cached service keeps a module-level records list and a fetch timestamp.
Remote calls are oracle arguments: a list (or optional record) standing for
the already-mapped result of the store call, or an Except carrying either
the remote result or the store's error message.  Each read returns its
result together with a flag recording whether a remote call was performed.
now is the value of Date.now() at the call.  JS computes
Date.now() - cacheTimestamp as a possibly negative number; with Nat
truncated subtraction a negative difference collapses to 0, which leaves
the comparison with the TTL with the same truth value. -/

/-- CACHE_DURATION: 30 seconds, shared by all three cached services. -/
def CACHE_DURATION : Nat := 30000

/-! ### Cached property service (src/unnamed/part_001 lines 216-328) -/

structure PropertiesCacheState where
  propertiesCache : Option (List Property)
  cacheTimestamp : Nat
deriving DecidableEq, Repr

/-- invalidatePropertiesCache: clear the list and zero the timestamp. -/
def invalidatePropertiesCache : PropertiesCacheState :=
  { propertiesCache := none, cacheTimestamp := 0 }

/-- getProperties(forceRefresh): serve the cache when present, not forced and
younger than the TTL; otherwise fetch (capped remotely at 100 rows), replace
the cache and stamp it. -/
def getProperties (forceRefresh : Bool) (s : PropertiesCacheState) (now : Nat)
    (remote : List Property) : List Property × PropertiesCacheState × Bool :=
  match s.propertiesCache with
  | some cached =>
      if forceRefresh = false ∧ now - s.cacheTimestamp < CACHE_DURATION then
        (cached, s, false)
      else
        (remote, { propertiesCache := some remote, cacheTimestamp := now }, true)
  | none =>
      (remote, { propertiesCache := some remote, cacheTimestamp := now }, true)

/-- getPropertyById: scan the cache first whenever it is populated (no TTL
check in the source); on miss or cold cache, a remote point lookup. -/
def getPropertyById (s : PropertiesCacheState) (id : String)
    (remote : Option Property) : Option Property × Bool :=
  match s.propertiesCache with
  | some cached =>
      match cached.find? (fun p => p.id == id) with
      | some p => (some p, false)
      | none => (remote, true)
  | none => (remote, true)

/-- getActiveProperties: filter the cache whenever it is populated (no TTL
check in the source); on cold cache, a scoped remote query. -/
def getActiveProperties (s : PropertiesCacheState) (remote : List Property) :
    List Property × Bool :=
  match s.propertiesCache with
  | some cached => (cached.filter (fun p => p.isActive), false)
  | none => (remote, true)

/-- createProperty: remote write, then invalidate on success; a remote
failure propagates and leaves the cache untouched. -/
def createProperty (s : PropertiesCacheState) (remote : Except String String) :
    Except String String × PropertiesCacheState :=
  match remote with
  | .ok docId => (.ok docId, invalidatePropertiesCache)
  | .error msg => (.error msg, s)

/-- updateProperty: remote write, then invalidate on success. -/
def updateProperty (s : PropertiesCacheState) (remote : Except String Unit) :
    Except String Unit × PropertiesCacheState :=
  match remote with
  | .ok _ => (.ok (), invalidatePropertiesCache)
  | .error msg => (.error msg, s)

/-- deleteProperty: remote delete, then invalidate on success. -/
def deleteProperty (s : PropertiesCacheState) (remote : Except String Unit) :
    Except String Unit × PropertiesCacheState :=
  match remote with
  | .ok _ => (.ok (), invalidatePropertiesCache)
  | .error msg => (.error msg, s)

/-! ### Transaction service (src/src/services/transactionService.ts) -/

structure TransactionsCacheState where
  transactionsCache : Option (List Transaction)
  cacheTimestamp : Nat
deriving DecidableEq, Repr

/-- isCacheValid: cache present and younger than the TTL. -/
def isCacheValid (s : TransactionsCacheState) (now : Nat) : Bool :=
  s.transactionsCache.isSome && decide (now - s.cacheTimestamp < CACHE_DURATION)

/-- invalidateTransactionsCache. -/
def invalidateTransactionsCache : TransactionsCacheState :=
  { transactionsCache := none, cacheTimestamp := 0 }

/-- getTransactions: serve a valid cache, else fetch (capped remotely at 500
rows), replace and stamp. -/
def getTransactions (s : TransactionsCacheState) (now : Nat)
    (remote : List Transaction) : List Transaction × TransactionsCacheState × Bool :=
  if isCacheValid s now then (s.transactionsCache.getD [], s, false)
  else (remote, { transactionsCache := some remote, cacheTimestamp := now }, true)

/-- getTransactionById: scan a valid cache first; on miss or invalid cache a
remote point lookup. -/
def getTransactionById (s : TransactionsCacheState) (now : Nat) (id : String)
    (remote : Option Transaction) : Option Transaction × Bool :=
  if isCacheValid s now then
    match (s.transactionsCache.getD []).find? (fun t => t.id == id) with
    | some t => (some t, false)
    | none => (remote, true)
  else (remote, true)

/-- getTransactionsByProperty: filter a valid cache; on invalid cache load
all transactions through getTransactions and filter the result. -/
def getTransactionsByProperty (s : TransactionsCacheState) (now : Nat)
    (propertyId : String) (remote : List Transaction) :
    List Transaction × TransactionsCacheState × Bool :=
  if isCacheValid s now then
    ((s.transactionsCache.getD []).filter (fun t => t.propertyId == propertyId), s, false)
  else
    let r := getTransactions s now remote
    (r.1.filter (fun t => t.propertyId == propertyId), r.2.1, r.2.2)

/-- getTransactionsByType: filter a valid cache; on invalid cache load all
transactions through getTransactions and filter the result. -/
def getTransactionsByType (s : TransactionsCacheState) (now : Nat)
    (t : TransactionType) (remote : List Transaction) :
    List Transaction × TransactionsCacheState × Bool :=
  if isCacheValid s now then
    ((s.transactionsCache.getD []).filter (fun x => x.txType == t), s, false)
  else
    let r := getTransactions s now remote
    (r.1.filter (fun x => x.txType == t), r.2.1, r.2.2)

/-- createTransaction: remote write, then invalidate on success. -/
def createTransaction (s : TransactionsCacheState) (remote : Except String String) :
    Except String String × TransactionsCacheState :=
  match remote with
  | .ok docId => (.ok docId, invalidateTransactionsCache)
  | .error msg => (.error msg, s)

/-- updateTransaction: remote write, then invalidate on success. -/
def updateTransaction (s : TransactionsCacheState) (remote : Except String Unit) :
    Except String Unit × TransactionsCacheState :=
  match remote with
  | .ok _ => (.ok (), invalidateTransactionsCache)
  | .error msg => (.error msg, s)

/-- deleteTransaction: remote delete, then invalidate on success. -/
def deleteTransaction (s : TransactionsCacheState) (remote : Except String Unit) :
    Except String Unit × TransactionsCacheState :=
  match remote with
  | .ok _ => (.ok (), invalidateTransactionsCache)
  | .error msg => (.error msg, s)

/-! ### Cached reservation service (src/unnamed/part_004) -/

structure ReservationsCacheState where
  reservationsCache : Option (List Reservation)
  cacheTimestamp : Nat
deriving DecidableEq, Repr

/-- invalidateReservationsCache. -/
def invalidateReservationsCache : ReservationsCacheState :=
  { reservationsCache := none, cacheTimestamp := 0 }

/-- getReservations(forceRefresh): serve the cache when present, not forced
and younger than the TTL; otherwise fetch (capped remotely at 200 rows),
replace and stamp. -/
def getReservations (forceRefresh : Bool) (s : ReservationsCacheState) (now : Nat)
    (remote : List Reservation) : List Reservation × ReservationsCacheState × Bool :=
  match s.reservationsCache with
  | some cached =>
      if forceRefresh = false ∧ now - s.cacheTimestamp < CACHE_DURATION then
        (cached, s, false)
      else
        (remote, { reservationsCache := some remote, cacheTimestamp := now }, true)
  | none =>
      (remote, { reservationsCache := some remote, cacheTimestamp := now }, true)

/-- getReservationById: scan the cache first whenever it is populated (no TTL
check in the source); on miss or cold cache, a remote point lookup. -/
def getReservationById (s : ReservationsCacheState) (id : String)
    (remote : Option Reservation) : Option Reservation × Bool :=
  match s.reservationsCache with
  | some cached =>
      match cached.find? (fun r => r.id == id) with
      | some r => (some r, false)
      | none => (remote, true)
  | none => (remote, true)

/-- getReservationsByProperty: filter the cache whenever it is populated (no
TTL check in the source); on cold cache, a scoped remote query capped at 100
rows. -/
def getReservationsByProperty (s : ReservationsCacheState) (propertyId : String)
    (remote : List Reservation) : List Reservation × Bool :=
  match s.reservationsCache with
  | some cached => (cached.filter (fun r => r.propertyId == propertyId), false)
  | none => (remote, true)

/-- createReservation: remote write, then invalidate on success. -/
def createReservation (s : ReservationsCacheState) (remote : Except String String) :
    Except String String × ReservationsCacheState :=
  match remote with
  | .ok docId => (.ok docId, invalidateReservationsCache)
  | .error msg => (.error msg, s)

/-- updateReservation: remote write of the assembled patch, then invalidate
on success (the patch assembly itself is modelled by
updateReservationData below). -/
def updateReservation (s : ReservationsCacheState) (remote : Except String Unit) :
    Except String Unit × ReservationsCacheState :=
  match remote with
  | .ok _ => (.ok (), invalidateReservationsCache)
  | .error msg => (.error msg, s)

/-- updateReservationStatus: remote write of the status, then invalidate on
success. -/
def updateReservationStatus (s : ReservationsCacheState) (remote : Except String Unit) :
    Except String Unit × ReservationsCacheState :=
  match remote with
  | .ok _ => (.ok (), invalidateReservationsCache)
  | .error msg => (.error msg, s)

/-- deleteReservation: remote delete, then invalidate on success. -/
def deleteReservation (s : ReservationsCacheState) (remote : Except String Unit) :
    Except String Unit × ReservationsCacheState :=
  match remote with
  | .ok _ => (.ok (), invalidateReservationsCache)
  | .error msg => (.error msg, s)

/-! ## Calendar dates and the wire form (src/src/utils/date.ts)

JS strings are modelled as character lists, so the split, destructure and
Number() steps of parseDateOnly become plain recursive functions.  A JS Date
value is modelled by the local calendar components that the code reads
(getFullYear/getMonth/getDate); the date utilities never consult the UTC
accessors or the timezone offset, so the timezone of the machine never
enters any computation and every result below holds under every local
offset.
-/

/-- The local calendar components of a JS Date value. -/
structure CalDate where
  year : Int
  month : Int
  day : Int
deriving DecidableEq, Repr

/-- Leap year of the proleptic Gregorian calendar, as in ECMAScript. -/
def isLeapYear (y : Int) : Bool :=
  y % 4 == 0 && (y % 100 != 0 || y % 400 == 0)

/-- Days in a month (month numbered 1..12). -/
def daysInMonth (y m : Int) : Int :=
  if m = 2 then (if isLeapYear y then 29 else 28)
  else if m = 4 ∨ m = 6 ∨ m = 9 ∨ m = 11 then 30
  else 31

/-- Day number (days since 1970-01-01) of a civil date: the standard
closed-form civil-calendar conversion. -/
def daysFromCivil (y m d : Int) : Int :=
  let y2 := if m ≤ 2 then y - 1 else y
  let era := Int.fdiv y2 400
  let yoe := y2 - era * 400
  let mp := Int.fmod (m + 9) 12
  let doy := Int.fdiv (153 * mp + 2) 5 + d - 1
  let doe := yoe * 365 + Int.fdiv yoe 4 - Int.fdiv yoe 100 + doy
  era * 146097 + doe - 719468

/-- Civil date of a day number: inverse of daysFromCivil. -/
def civilFromDays (z0 : Int) : CalDate :=
  let z := z0 + 719468
  let era := Int.fdiv z 146097
  let doe := z - era * 146097
  let yoe := Int.fdiv (doe - Int.fdiv doe 1460 + Int.fdiv doe 36524 - Int.fdiv doe 146096) 365
  let y := yoe + era * 400
  let doy := doe - (365 * yoe + Int.fdiv yoe 4 - Int.fdiv yoe 100)
  let mp := Int.fdiv (5 * doy + 2) 153
  let d := doy - Int.fdiv (153 * mp + 2) 5 + 1
  let m := if mp < 10 then mp + 3 else mp - 9
  { year := if m ≤ 2 then y + 1 else y, month := m, day := d }

/-- The ECMAScript constructor new Date(year, monthIndex, day), restricted
to its calendar behavior: a year argument between 0 and 99 is read as
1900 + year; the month index is floor-normalized onto 1..12 carrying into
the year; a day outside the month rolls over by day arithmetic through the
civil day-number conversions (the in-range branch short-circuits that
conversion, with which it agrees). -/
def jsDateCtor (y mi d : Int) : CalDate :=
  let yr := if 0 ≤ y ∧ y ≤ 99 then 1900 + y else y
  let ym := yr + Int.fdiv mi 12
  let m := Int.fmod mi 12 + 1
  if 1 ≤ d ∧ d ≤ daysInMonth ym m then { year := ym, month := m, day := d }
  else civilFromDays (daysFromCivil ym m 1 + (d - 1))

/-- JS String.prototype.split with a one-character separator, over strings
as character lists; the auxiliary carries the current segment reversed. -/
def splitOnCharAux (c : Char) : List Char → List Char → List (List Char)
  | [], acc => [acc.reverse]
  | x :: xs, acc =>
      if x = c then acc.reverse :: splitOnCharAux c xs []
      else splitOnCharAux c xs (x :: acc)

/-- JS split at a one-character separator. -/
def splitOnChar (c : Char) (l : List Char) : List (List Char) :=
  splitOnCharAux c l []

/-- Decimal digit character of a value below ten. -/
def digitChar (n : Nat) : Char := Char.ofNat (48 + n)

/-- Decimal printing of a natural number, fuelled so that it is structural
(the fuel n + 1 always suffices since the argument shrinks by a factor of
ten each step). -/
def printNatAux : Nat → Nat → List Char → List Char
  | 0, _, acc => acc
  | fuel + 1, n, acc =>
      if n < 10 then digitChar n :: acc
      else printNatAux fuel (n / 10) (digitChar (n % 10) :: acc)

/-- JS String() of a natural number: its decimal digit characters. -/
def printNat (n : Nat) : List Char :=
  printNatAux (n + 1) n []

/-- JS String() of an integer. -/
def printInt (i : Int) : List Char :=
  if i < 0 then '-' :: printNat (Int.toNat (-i)) else printNat (Int.toNat i)

/-- String.prototype.padStart(2, "0"). -/
def padStart2 (l : List Char) : List Char :=
  List.replicate (2 - l.length) '0' ++ l

/-- Numeric value of a decimal digit character, none otherwise. -/
def digitVal (ch : Char) : Option Nat :=
  if 48 ≤ ch.toNat ∧ ch.toNat ≤ 57 then some (ch.toNat - 48) else none

/-- Left-to-right decimal accumulation; none at the first non-digit. -/
def parseDigitsAux : List Char → Nat → Option Nat
  | [], acc => some acc
  | ch :: rest, acc =>
      match digitVal ch with
      | some d => parseDigitsAux rest (acc * 10 + d)
      | none => none

/-- JS Number() restricted to the strings reaching it in parseDateOnly
(segments of a split date string): the empty string converts to 0 and a
digit string to its decimal value; other shapes are NaN (none).  Full
Number() coercion accepts further shapes — signs, blanks, decimal points —
that cannot occur inside a well-formed date wire string. -/
def jsNumberOfChars (l : List Char) : Option Int :=
  if l = [] then some 0
  else (parseDigitsAux l 0).map Int.ofNat

/-- Number() applied to an element of a destructured split result: a missing
element is undefined and Number(undefined) is NaN. -/
def jsNumberOfElem : Option (List Char) → Option Int
  | none => none
  | some l => jsNumberOfChars l

/-- parseDateOnly on a Date argument (utils/date.ts lines 4-6): rebuild the
Date from its local calendar components at local midnight. -/
def parseDateOnlyOfDate (d : CalDate) : CalDate :=
  jsDateCtor d.year (d.month - 1) d.day

/-- parseDateOnly on a string argument (utils/date.ts lines 1-20): throw on
the empty (falsy) string — modelled as none; take the part before any T,
split it at hyphens, convert the first three segments with Number(), and
when none is NaN build the Date from (year, month - 1, day).  The NaN
fallback (lines 14-17) hands the whole string to the implementation-defined
JS date parser; it is modelled as none and is unreachable from well-formed
wire strings. -/
def parseDateOnlyStr (s : List Char) : Option CalDate :=
  if s = [] then none
  else
    let datePart := (splitOnChar 'T' s).headD []
    let parts := splitOnChar '-' datePart
    match jsNumberOfElem parts[0]?, jsNumberOfElem parts[1]?, jsNumberOfElem parts[2]? with
    | some year, some month, some day => some (jsDateCtor year (month - 1) day)
    | _, _, _ => none

/-- formatDateOnly on a Date argument (utils/date.ts lines 22-28): normalize
through parseDateOnly, then join the year, zero-padded month and zero-padded
day with hyphens. -/
def formatDateOnlyOfDate (d : CalDate) : List Char :=
  let date := parseDateOnlyOfDate d
  printInt date.year ++ '-' :: padStart2 (printInt date.month) ++ '-' :: padStart2 (printInt date.day)

/-- The canonical wire form of an in-range calendar date, written in the
right-nested shape the split lemmas use.  For 100 ≤ y this is what
formatDateOnlyOfDate produces. -/
def dateWire (y m d : Nat) : List Char :=
  printNat y ++ ('-' :: (padStart2 (printNat m) ++ ('-' :: padStart2 (printNat d))))

/-! ## Partial-update patch builders (updateAccessCode, updateReservation)

An update argument models the JS object passed to the function: none is an
absent key, some a supplied value (strings may be supplied empty, hence
falsy; a supplied date key may hold a real Date or a falsy runtime value,
which the static type does not prevent).  The patch is the updateData
object the source assembles and sends to the store.
-/

/-- Partial access-code update argument. -/
structure AccessCodeUpdate where
  propertyId : Option String
  code : Option String
  description : Option String
  startDate : Option CalDate
  endDate : Option CalDate
deriving DecidableEq, Repr

/-- The updateData patch assembled by updateAccessCode. -/
structure AccessCodePatch where
  property_id : Option String
  code : Option String
  description : Option String
  start_date : Option (List Char)
  end_date : Option (List Char)
deriving DecidableEq, Repr

/-- updateAccessCode's patch assembly (AuthContext appendix lines 363-372,
same shape in src/unnamed/part_001 lines 75-88): property_id and code are
included only when supplied truthy (nonempty); description is included
whenever the key is present (compared against undefined, so the empty
string is included); the date columns are included when supplied (a Date
object is always truthy), in wire form. -/
def updateAccessCodeData (u : AccessCodeUpdate) : AccessCodePatch :=
  { property_id :=
      match u.propertyId with
      | some v => if v ≠ "" then some v else none
      | none => none
    code :=
      match u.code with
      | some v => if v ≠ "" then some v else none
      | none => none
    description := u.description
    start_date := u.startDate.map formatDateOnlyOfDate
    end_date := u.endDate.map formatDateOnlyOfDate }

/-- A stored access-code row (wire columns). -/
structure AccessCodeRow where
  property_id : String
  code : String
  description : String
  start_date : List Char
  end_date : List Char
deriving DecidableEq, Repr

/-- The store's update semantics: columns named in the patch are set, every
other column keeps its previous value. -/
def applyAccessCodePatch (r : AccessCodeRow) (p : AccessCodePatch) : AccessCodeRow :=
  { property_id := p.property_id.getD r.property_id
    code := p.code.getD r.code
    description := p.description.getD r.description
    start_date := p.start_date.getD r.start_date
    end_date := p.end_date.getD r.end_date }

/-- A supplied date key of a reservation update: a real Date (epoch ms) or a
falsy runtime value (undefined or null) that the Partial type lets through. -/
inductive JSDateArg where
  | undef
  | val (d : Int)
deriving DecidableEq, Repr

/-- Partial reservation update argument (every field of the entity except
id and the managed timestamps). -/
structure ReservationUpdate where
  propertyId : Option String
  guestName : Option String
  guestEmail : Option String
  guestPhone : Option String
  checkIn : Option JSDateArg
  checkOut : Option JSDateArg
  numberOfGuests : Option Int
  totalAmount : Option Int
  cleaningFee : Option Int
  platformFee : Option Int
  status : Option ReservationStatus
  source : Option ReservationSource
  notes : Option String
deriving DecidableEq, Repr

/-- A date cell of the assembled Firestore patch: the converted Timestamp,
or the raw falsy value left in place by the spread when the truthiness
check skipped the conversion. -/
inductive FirestorePatchDate where
  | timestamp (d : Int)
  | rawFalsy
deriving DecidableEq, Repr

/-- The updateData patch assembled by updateReservation (src/unnamed/
part_004 lines 178-189): the spread copies every supplied field into the
patch; checkIn/checkOut are overwritten with converted Timestamps only when
truthy; updatedAt is always set. -/
structure ReservationPatch where
  propertyId : Option String
  guestName : Option String
  guestEmail : Option String
  guestPhone : Option String
  checkIn : Option FirestorePatchDate
  checkOut : Option FirestorePatchDate
  numberOfGuests : Option Int
  totalAmount : Option Int
  cleaningFee : Option Int
  platformFee : Option Int
  status : Option ReservationStatus
  source : Option ReservationSource
  notes : Option String
  updatedAtSet : Bool
deriving DecidableEq, Repr

/-- updateReservation's patch assembly. -/
def updateReservationData (u : ReservationUpdate) : ReservationPatch :=
  { propertyId := u.propertyId
    guestName := u.guestName
    guestEmail := u.guestEmail
    guestPhone := u.guestPhone
    checkIn := u.checkIn.map (fun a =>
      match a with
      | .val d => .timestamp d
      | .undef => .rawFalsy)
    checkOut := u.checkOut.map (fun a =>
      match a with
      | .val d => .timestamp d
      | .undef => .rawFalsy)
    numberOfGuests := u.numberOfGuests
    totalAmount := u.totalAmount
    cleaningFee := u.cleaningFee
    platformFee := u.platformFee
    status := u.status
    source := u.source
    notes := u.notes
    updatedAtSet := true }

/-- The all-absent reservation update. -/
def emptyReservationUpdate : ReservationUpdate :=
  { propertyId := none, guestName := none, guestEmail := none, guestPhone := none
    checkIn := none, checkOut := none, numberOfGuests := none, totalAmount := none
    cleaningFee := none, platformFee := none, status := none, source := none
    notes := none }

/-- The all-absent access-code update. -/
def emptyAccessCodeUpdate : AccessCodeUpdate :=
  { propertyId := none, code := none, description := none
    startDate := none, endDate := none }

/-! ## Concrete subjects, sessions and profiles used in counterexamples and
witnesses -/

def userA : SUser := { id := "subject-A", email := some "a@example.com", metaDisplayName := none }

def userB : SUser := { id := "subject-B", email := some "b@example.com", metaDisplayName := none }

def profileA : Profile :=
  { id := "subject-A", email := "a@example.com", displayName := "A"
    role := .viewer, createdAt := 0, updatedAt := 0 }

def profileB : Profile :=
  { id := "subject-B", email := "b@example.com", displayName := "B"
    role := .viewer, createdAt := 0, updatedAt := 0 }

def sessionA : Session := { user := userA, accessToken := "tokA" }

def sessionB : Session := { user := userB, accessToken := "tokB" }

/-- A concrete admin profile for the C8 witness. -/
def adminProfile : Profile :=
  { id := "adm", email := "adm@example.com", displayName := "Adm"
    role := .admin, createdAt := 0, updatedAt := 0 }

/-- A concrete property record. -/
def propertyOne : Property :=
  { id := "p1", name := "Casa Azul", address := "Rua 1", city := "Lisboa"
    state := "LX", country := "PT", zipCode := "1000", propType := .apartment
    bedrooms := 2, bathrooms := 1, maxGuests := 4, amenities := []
    description := "", basePrice := 100, cleaningFee := 20, images := []
    isActive := true, ownerId := "owner1", createdAt := 0, updatedAt := 0 }

/-- A concrete reservation record. -/
def reservationOne : Reservation :=
  { id := "r1", propertyId := "p1", guestName := "G", guestEmail := "g@example.com"
    guestPhone := "", checkIn := 0, checkOut := 86400000, numberOfGuests := 2
    totalAmount := 300, cleaningFee := 20, platformFee := 10
    status := .confirmed, source := .direct, notes := ""
    createdAt := 0, updatedAt := 0 }

/-- Two overlapping reconciliations: reconcile of sA starts a resolution,
reconcile of sB starts another, then the two resolutions commit in the order
rFirst, rLast (both while mounted). -/
def twoReconcileRun (s : AuthState) (sA sB : Session)
    (rFirst rLast : Option Profile) : AuthState :=
  let r1 := handleSessionChangePhase1 true s (some sA)
  let r2 := handleSessionChangePhase1 true r1.1 (some sB)
  commitResolution true (commitResolution true r2.1 rFirst) rLast

/-- The run refuting C1: from the signed-out state, reconcile(A) starts,
reconcile(B) starts, B's profile commits, then A's late resolution commits. -/
def staleCommitRun : AuthState :=
  twoReconcileRun initialAuthState sessionA sessionB (some profileB) (some profileA)

/-! ## Theorems about the Session Manager -/

/-- C1 (counterexample): reconcile(subjectA) followed by reconcile(subjectB),
with subjectA's resolution completing after subjectB's, leaves the profile
cache holding subjectA's profile even though currentUserIdRef names subjectB:
the code commits a resolved profile guarded only by mountedness, with no
re-validation of the subject id. -/
theorem subject_switch_claim_counterexample :
    (handleSessionChangePhase1 true initialAuthState (some sessionA)).2 = some userA ∧
    (handleSessionChangePhase1 true
        (handleSessionChangePhase1 true initialAuthState (some sessionA)).1
        (some sessionB)).2 = some userB ∧
    staleCommitRun.currentUserIdRef = some "subject-B" ∧
    staleCommitRun.userData = some profileA ∧
    staleCommitRun.userDataRef = some profileA ∧
    profileA.id = "subject-A" ∧
    userA.id ≠ userB.id ∧
    profileA ≠ profileB := by
  refine ⟨rfl, rfl, rfl, rfl, rfl, rfl, by decide, by decide⟩

/-- C1 (amended): after reconcile(subjectA) then reconcile(subjectB) start
two resolutions, the profile cache ends up holding the result of whichever
resolution commits last; the commit is guarded only by mountedness, so when
subjectA's resolution commits after subjectB's, the cache holds subjectA's
result while currentUserIdRef still names subjectB.  SubjectB's profile is
guaranteed only when the commits happen in start order. -/
theorem subject_switch_last_commit_wins (s : AuthState) (uA uB : SUser)
    (tA tB : String) (rA rB : Option Profile)
    (hne : uA.id ≠ uB.id)
    (hstart : ¬(s.currentUserIdRef = some uA.id ∧ s.userDataRef.isSome = true)) :
    (handleSessionChangePhase1 true s (some ⟨uA, tA⟩)).2 = some uA ∧
    (handleSessionChangePhase1 true (handleSessionChangePhase1 true s (some ⟨uA, tA⟩)).1
        (some ⟨uB, tB⟩)).2 = some uB ∧
    (twoReconcileRun s ⟨uA, tA⟩ ⟨uB, tB⟩ rB rA).userData = rA ∧
    (twoReconcileRun s ⟨uA, tA⟩ ⟨uB, tB⟩ rB rA).userDataRef = rA ∧
    (twoReconcileRun s ⟨uA, tA⟩ ⟨uB, tB⟩ rB rA).currentUserIdRef = some uB.id ∧
    (twoReconcileRun s ⟨uA, tA⟩ ⟨uB, tB⟩ rA rB).userData = rB := by
  simp only [twoReconcileRun, handleSessionChangePhase1, commitResolution]
  simp only [if_neg hstart]
  constructor
  · simp
  constructor
  · simp only [Bool.true_eq_false, if_false, reduceIte]
    rw [if_neg (by intro h; exact hne (Option.some.inj h.1))]
  · simp only [Bool.true_eq_false, if_false, reduceIte]
    rw [if_neg (by intro h; exact hne (Option.some.inj h.1))]
    simp

/-- Witness for the amended C1 theorem at concrete subjects. -/
theorem subject_switch_last_commit_wins_witness :
    (twoReconcileRun initialAuthState ⟨userA, "tA"⟩ ⟨userB, "tB"⟩
        (some profileB) (some profileA)).userData = some profileA :=
  (subject_switch_last_commit_wins initialAuthState userA userB "tA" "tB"
    (some profileA) (some profileB) (by decide) (by decide)).2.2.1

/-- C2: while a profile is already cached for the current subject, every
further reconcile carrying a session with that same subject id starts no
profile fetch and leaves the cached profile untouched: the run performs zero
resolutions. -/
theorem reconcile_idempotent_per_subject (s : AuthState) (uid : String)
    (p : Profile) (events : List (Option Session))
    (href : s.currentUserIdRef = some uid)
    (hdata : s.userDataRef = some p)
    (hall : ∀ e ∈ events, ∃ sess, e = some sess ∧ sess.user.id = uid) :
    (reconcileSeq s events).2 = 0 ∧
    (reconcileSeq s events).1.userData = s.userData ∧
    (reconcileSeq s events).1.currentUserIdRef = some uid ∧
    (reconcileSeq s events).1.userDataRef = some p := by
  induction events generalizing s with
  | nil => exact ⟨rfl, rfl, href, hdata⟩
  | cons e es ih =>
      obtain ⟨sess, rfl, hid⟩ := hall e (List.mem_cons_self e es)
      have hcond : s.currentUserIdRef = some sess.user.id ∧ s.userDataRef.isSome = true := by
        rw [hid, href, hdata]; exact ⟨rfl, rfl⟩
      have hstep : handleSessionChangePhase1 true s (some sess) =
          ({ s with session := some sess, currentUser := some sess.user }, none) := by
        simp only [handleSessionChangePhase1, Bool.true_eq_false, if_false]
        rw [if_pos hcond]
      have hrec : reconcileSeq s (some sess :: es) =
          ((reconcileSeq { s with session := some sess, currentUser := some sess.user } es).1,
           0 + (reconcileSeq { s with session := some sess, currentUser := some sess.user } es).2) := by
        simp only [reconcileSeq, hstep, Option.isSome_none, Bool.false_eq_true, if_false]
      obtain ⟨hn, hd, hr, hdr⟩ :=
        ih { s with session := some sess, currentUser := some sess.user } href hdata
          (fun e he => hall e (List.mem_cons_of_mem _ he))
      rw [hrec]
      exact ⟨by rw [hn], hd, hr, hdr⟩

/-- Witness for the C2 theorem: with subject-A cached, two further events for
subject-A start no fetch. -/
theorem reconcile_idempotent_per_subject_witness :
    (reconcileSeq
      { initialAuthState with
        currentUserIdRef := some "subject-A",
        userDataRef := some profileA, userData := some profileA }
      [some sessionA, some sessionA]).2 = 0 :=
  (reconcile_idempotent_per_subject _ "subject-A" profileA _ rfl rfl
    (by
      intro e he
      rcases List.mem_cons.mp he with h | h
      · exact ⟨sessionA, h, rfl⟩
      · rcases List.mem_cons.mp h with h2 | h2
        · exact ⟨sessionA, h2, rfl⟩
        · exact absurd h2 (List.not_mem_nil e))).1

/-- C6: when the provider reports no session — a reconcile with an absent
session, or a visibility-triggered pull returning absent while a subject id
was cached — the manager clears session, currentUser, currentUserIdRef,
userData and userDataRef at once, no fetch is started, and hasPermission is
false for every required role afterwards. -/
theorem absent_session_clears_state :
    (∀ s : AuthState,
      (handleSessionChangePhase1 true s none).1.session = none ∧
      (handleSessionChangePhase1 true s none).1.currentUser = none ∧
      (handleSessionChangePhase1 true s none).1.currentUserIdRef = none ∧
      (handleSessionChangePhase1 true s none).1.userData = none ∧
      (handleSessionChangePhase1 true s none).1.userDataRef = none ∧
      (handleSessionChangePhase1 true s none).2 = none ∧
      ∀ r, hasPermission (handleSessionChangePhase1 true s none).1.userData r = false) ∧
    (∀ (s : AuthState) (uid : String), s.currentUserIdRef = some uid →
      (handleVisibilityVisible true s none).1.session = none ∧
      (handleVisibilityVisible true s none).1.currentUser = none ∧
      (handleVisibilityVisible true s none).1.currentUserIdRef = none ∧
      (handleVisibilityVisible true s none).1.userData = none ∧
      (handleVisibilityVisible true s none).1.userDataRef = none ∧
      (handleVisibilityVisible true s none).2 = none ∧
      ∀ r, hasPermission (handleVisibilityVisible true s none).1.userData r = false) := by
  constructor
  · intro s
    exact ⟨rfl, rfl, rfl, rfl, rfl, rfl, fun r => rfl⟩
  · intro s uid h
    have hs : s.currentUserIdRef.isSome = true := by rw [h]; rfl
    have hv : handleVisibilityVisible true s none =
        ({ s with session := none, currentUser := none, userData := none
                  currentUserIdRef := none, userDataRef := none }, none) := by
      simp only [handleVisibilityVisible, Bool.true_eq_false, if_false]
      rw [if_pos hs]
    rw [hv]
    exact ⟨rfl, rfl, rfl, rfl, rfl, rfl, fun r => rfl⟩

/-- Witness for the C6 theorem: a cached subject-A state is fully cleared by
an absent visibility pull. -/
theorem absent_session_clears_state_witness :
    (handleVisibilityVisible true
      { initialAuthState with
        currentUserIdRef := some "subject-A",
        userDataRef := some profileA, userData := some profileA }
      none).1.userData = none :=
  (absent_session_clears_state.2 _ "subject-A" rfl).2.2.2.1

/-- C7: the Profile Resolver is a total function of its inputs and the remote
outcomes — it returns a profile or absent on every path, never a thrown
error.  When the select reports the specific no-rows condition it issues one
insert for the subject with role viewer and the derived display name
(subject metadata if truthy, else the local part of the email, else the
literal fallback), returning the inserted row mapped to Profile; a failed
insert, an abort-cancellation (reported or thrown), and every other error
all resolve to absent. -/
theorem profile_resolver_total (u : SUser)
    (ins : InsertUserRequest → InsertUserOutcome) :
    (∀ row, fetchOrCreateUserData u (.found row) ins = (some (mapUserData row), none)) ∧
    fetchOrCreateUserData u .abortError ins = (none, none) ∧
    (∀ m, fetchOrCreateUserData u (.otherError m) ins = (none, none)) ∧
    fetchOrCreateUserData u .thrownAbort ins = (none, none) ∧
    (∀ m, fetchOrCreateUserData u (.thrownOther m) ins = (none, none)) ∧
    (∀ row, ins (insertReqFor u) = .inserted row →
      fetchOrCreateUserData u .noRows ins = (some (mapUserData row), some (insertReqFor u))) ∧
    (∀ m, ins (insertReqFor u) = .insertError m →
      fetchOrCreateUserData u .noRows ins = (none, some (insertReqFor u))) ∧
    (insertReqFor u).role = .viewer ∧
    (insertReqFor u).id = u.id ∧
    (insertReqFor u).email = u.email ∧
    (∀ d, u.metaDisplayName = some d → d ≠ "" → (insertReqFor u).display_name = d) ∧
    (∀ e, jsTruthyStr u.metaDisplayName = false → u.email = some e →
      emailLocalPart e ≠ "" → (insertReqFor u).display_name = emailLocalPart e) ∧
    (jsTruthyStr u.metaDisplayName = false →
      jsTruthyStr (u.email.map emailLocalPart) = false →
      (insertReqFor u).display_name = "Usuário") := by
  refine ⟨fun row => rfl, rfl, fun m => rfl, rfl, fun m => rfl, ?_, ?_, rfl, rfl, rfl,
    ?_, ?_, ?_⟩
  · intro row h
    simp only [fetchOrCreateUserData, h]
  · intro m h
    simp only [fetchOrCreateUserData, h]
  · intro d hd hne
    simp [insertReqFor, deriveDisplayName, jsOrStr, jsTruthyStr, hd, hne]
  · intro e hmeta he hne
    simp only [insertReqFor, deriveDisplayName, jsOrStr, hmeta, Bool.false_eq_true,
      if_false, he]
    simp [hne]
  · intro hmeta hemail
    simp only [insertReqFor, deriveDisplayName, jsOrStr, hmeta, Bool.false_eq_true, if_false]
    cases h : u.email.map emailLocalPart with
    | none => rfl
    | some s =>
        rw [h] at hemail
        have hs : s = "" := by simpa [jsTruthyStr] using hemail
        simp [hs]

/-- Witness for the C7 theorem: a subject with no metadata and no usable
email local part gets the fallback name, and a failed insert resolves to
absent. -/
theorem profile_resolver_total_witness :
    fetchOrCreateUserData { id := "u9", email := none, metaDisplayName := none }
      .noRows (fun _ => .insertError "insert failed")
      = (none, some (insertReqFor { id := "u9", email := none, metaDisplayName := none })) :=
  (profile_resolver_total { id := "u9", email := none, metaDisplayName := none }
    (fun _ => .insertError "insert failed")).2.2.2.2.2.2.1 "insert failed" rfl

/-- C8: hasPermission is a pure function of the cached profile — false when
no profile is cached, and otherwise exactly the comparison of the fixed role
ranks admin 3, manager 2, viewer 1; hence it is monotone in the required
role, an admin profile passes every check and a viewer profile passes only
the viewer check. -/
theorem hasPermission_rank_order :
    (∀ r : UserRole, hasPermission none r = false) ∧
    (∀ (p : Profile) (r : UserRole),
      (hasPermission (some p) r = true ↔ roleHierarchy r ≤ roleHierarchy p.role)) ∧
    (∀ (p : Profile) (r rLow : UserRole), roleHierarchy rLow ≤ roleHierarchy r →
      hasPermission (some p) r = true → hasPermission (some p) rLow = true) ∧
    (∀ p : Profile, p.role = .admin → ∀ r, hasPermission (some p) r = true) ∧
    (∀ (p : Profile) (r : UserRole), p.role = .viewer →
      (hasPermission (some p) r = true ↔ r = .viewer)) := by
  have hiff : ∀ (p : Profile) (r : UserRole),
      hasPermission (some p) r = true ↔ roleHierarchy r ≤ roleHierarchy p.role := by
    intro p r
    simp [hasPermission]
  refine ⟨fun r => rfl, hiff, ?_, ?_, ?_⟩
  · intro p r rLow hle h
    exact (hiff p rLow).mpr (le_trans hle ((hiff p r).mp h))
  · intro p hrole r
    refine (hiff p r).mpr ?_
    rw [hrole]
    cases r <;> simp [roleHierarchy]
  · intro p r hrole
    rw [hiff p r, hrole]
    cases r <;> simp [roleHierarchy]

/-- Witness for the C8 theorem: an admin profile passes the manager check. -/
theorem hasPermission_rank_order_witness :
    hasPermission (some adminProfile) .manager = true :=
  hasPermission_rank_order.2.2.2.1 adminProfile rfl .manager

/-! ## Theorems about the entity caches -/

/-- After a non-forced getProperties, the cache holds exactly the returned
list. -/
lemma getProperties_cache_result (s : PropertiesCacheState) (now : Nat)
    (remote : List Property) :
    ((getProperties false s now remote).2.1).propertiesCache =
      some (getProperties false s now remote).1 := by
  simp only [getProperties]
  split
  · split
    · next cached heq _ => simpa using heq
    · rfl
  · rfl

/-- After a non-forced getReservations, the cache holds exactly the returned
list. -/
lemma getReservations_cache_result (s : ReservationsCacheState) (now : Nat)
    (remote : List Reservation) :
    ((getReservations false s now remote).2.1).reservationsCache =
      some (getReservations false s now remote).1 := by
  simp only [getReservations]
  split
  · split
    · next cached heq _ => simpa using heq
    · rfl
  · rfl

/-- After a getTransactions, the cache holds exactly the returned list. -/
lemma getTransactions_cache_result (s : TransactionsCacheState) (now : Nat)
    (remote : List Transaction) :
    ((getTransactions s now remote).2.1).transactionsCache =
      some (getTransactions s now remote).1 := by
  simp only [getTransactions]
  by_cases hv : isCacheValid s now = true
  · have hv2 := hv
    simp only [isCacheValid, Bool.and_eq_true, decide_eq_true_eq] at hv2
    obtain ⟨l, hl⟩ := Option.isSome_iff_exists.mp hv2.1
    rw [if_pos hv, hl]
    simp
  · rw [if_neg hv]

/-- C3 (counterexample): with the property cache fetched at time 0 and the
clock at 31000 ms — past the 30 s TTL — getPropertyById still answers from
the cache with no remote lookup, and getActiveProperties and
getReservationById do the same: these reads never consult the TTL, so a read
operation does return cache contents older than the TTL. -/
theorem cache_ttl_reads_counterexample :
    getPropertyById { propertiesCache := some [propertyOne], cacheTimestamp := 0 } "p1" none
      = (some propertyOne, false) ∧
    getActiveProperties { propertiesCache := some [propertyOne], cacheTimestamp := 0 } []
      = ([propertyOne], false) ∧
    getReservationById { reservationsCache := some [reservationOne], cacheTimestamp := 0 } "r1" none
      = (some reservationOne, false) ∧
    ¬(31000 - 0 < CACHE_DURATION) := by
  refine ⟨rfl, rfl, rfl, by decide⟩

/-- C3 (amended): the TTL guard covers only the full-list gets and the
transaction service's reads (isCacheValid): those return cache contents only
while the cache is valid, and fetch remotely otherwise.  The cached property
and reservation services' point lookups and derived reads consult the cache
whenever it is populated, regardless of entry age, and so can return
contents older than the TTL until the cache is invalidated or replaced. -/
theorem cache_ttl_reads_amended :
    (∀ (s : TransactionsCacheState) (now : Nat) (id : String) (remote : Option Transaction),
      isCacheValid s now = false → getTransactionById s now id remote = (remote, true)) ∧
    (∀ (s : TransactionsCacheState) (now : Nat) (remote : List Transaction),
      isCacheValid s now = false →
        getTransactions s now remote =
          (remote, { transactionsCache := some remote, cacheTimestamp := now }, true)) ∧
    (∀ (s : TransactionsCacheState) (now : Nat) (pid : String) (remote : List Transaction),
      isCacheValid s now = false →
        getTransactionsByProperty s now pid remote =
          (remote.filter (fun t => t.propertyId == pid),
           { transactionsCache := some remote, cacheTimestamp := now }, true)) ∧
    (∀ (s : PropertiesCacheState) (now : Nat) (remote : List Property),
      ¬(now - s.cacheTimestamp < CACHE_DURATION) →
        getProperties false s now remote =
          (remote, { propertiesCache := some remote, cacheTimestamp := now }, true)) ∧
    (∀ (s : ReservationsCacheState) (now : Nat) (remote : List Reservation),
      ¬(now - s.cacheTimestamp < CACHE_DURATION) →
        getReservations false s now remote =
          (remote, { reservationsCache := some remote, cacheTimestamp := now }, true)) ∧
    (∀ (l : List Property) (ts1 ts2 : Nat) (id : String) (remote : Option Property),
      getPropertyById { propertiesCache := some l, cacheTimestamp := ts1 } id remote =
        getPropertyById { propertiesCache := some l, cacheTimestamp := ts2 } id remote) ∧
    (∀ (l : List Property) (ts : Nat) (remote : List Property),
      getActiveProperties { propertiesCache := some l, cacheTimestamp := ts } remote =
        (l.filter (fun p => p.isActive), false)) ∧
    (∀ (l : List Reservation) (ts1 ts2 : Nat) (id : String) (remote : Option Reservation),
      getReservationById { reservationsCache := some l, cacheTimestamp := ts1 } id remote =
        getReservationById { reservationsCache := some l, cacheTimestamp := ts2 } id remote) ∧
    (∀ (l : List Reservation) (ts : Nat) (pid : String) (remote : List Reservation),
      getReservationsByProperty { reservationsCache := some l, cacheTimestamp := ts } pid remote =
        (l.filter (fun r => r.propertyId == pid), false)) := by
  refine ⟨?_, ?_, ?_, ?_, ?_, ?_, ?_, ?_, ?_⟩
  · intro s now id remote h
    simp only [getTransactionById, h, Bool.false_eq_true, if_false]
  · intro s now remote h
    simp only [getTransactions, h, Bool.false_eq_true, if_false]
  · intro s now pid remote h
    simp only [getTransactionsByProperty, getTransactions, h, Bool.false_eq_true, if_false]
  · intro s now remote h
    simp only [getProperties]
    split
    · rw [if_neg (fun hc => h hc.2)]
    · rfl
  · intro s now remote h
    simp only [getReservations]
    split
    · rw [if_neg (fun hc => h hc.2)]
    · rfl
  · intro l ts1 ts2 id remote
    rfl
  · intro l ts remote
    rfl
  · intro l ts1 ts2 id remote
    rfl
  · intro l ts pid remote
    rfl

/-- Witness for the amended C3 theorem: an invalid transaction cache sends a
point lookup to the store. -/
theorem cache_ttl_reads_amended_witness :
    getTransactionById invalidateTransactionsCache 31000 "t1" none = (none, true) :=
  cache_ttl_reads_amended.1 invalidateTransactionsCache 31000 "t1" none rfl

/-- C4: for each cached entity kind, a get whose predecessor returned
(r1, s1) and that runs again within the TTL with no intervening mutation
returns the same sequence r1 from the same state with no remote fetch, and a
get running after the TTL has elapsed performs exactly one remote fetch,
replacing the cached sequence and its timestamp with the fresh result. -/
theorem cache_get_ttl_behavior :
    (∀ (s s1 : PropertiesCacheState) (now1 now2 : Nat)
       (remote1 remote2 r1 : List Property) (f1 : Bool),
      getProperties false s now1 remote1 = (r1, s1, f1) →
      (now2 - s1.cacheTimestamp < CACHE_DURATION →
        getProperties false s1 now2 remote2 = (r1, s1, false)) ∧
      (¬(now2 - s1.cacheTimestamp < CACHE_DURATION) →
        getProperties false s1 now2 remote2 =
          (remote2, { propertiesCache := some remote2, cacheTimestamp := now2 }, true))) ∧
    (∀ (s s1 : ReservationsCacheState) (now1 now2 : Nat)
       (remote1 remote2 r1 : List Reservation) (f1 : Bool),
      getReservations false s now1 remote1 = (r1, s1, f1) →
      (now2 - s1.cacheTimestamp < CACHE_DURATION →
        getReservations false s1 now2 remote2 = (r1, s1, false)) ∧
      (¬(now2 - s1.cacheTimestamp < CACHE_DURATION) →
        getReservations false s1 now2 remote2 =
          (remote2, { reservationsCache := some remote2, cacheTimestamp := now2 }, true))) ∧
    (∀ (s s1 : TransactionsCacheState) (now1 now2 : Nat)
       (remote1 remote2 r1 : List Transaction) (f1 : Bool),
      getTransactions s now1 remote1 = (r1, s1, f1) →
      (now2 - s1.cacheTimestamp < CACHE_DURATION →
        getTransactions s1 now2 remote2 = (r1, s1, false)) ∧
      (¬(now2 - s1.cacheTimestamp < CACHE_DURATION) →
        getTransactions s1 now2 remote2 =
          (remote2, { transactionsCache := some remote2, cacheTimestamp := now2 }, true))) := by
  refine ⟨?_, ?_, ?_⟩
  · intro s s1 now1 now2 remote1 remote2 r1 f1 h
    have hc : s1.propertiesCache = some r1 := by
      have hx := getProperties_cache_result s now1 remote1
      rw [h] at hx
      exact hx
    constructor
    · intro hlt
      simp [getProperties, hc, hlt]
    · intro hge
      simp [getProperties, hc, hge]
  · intro s s1 now1 now2 remote1 remote2 r1 f1 h
    have hc : s1.reservationsCache = some r1 := by
      have hx := getReservations_cache_result s now1 remote1
      rw [h] at hx
      exact hx
    constructor
    · intro hlt
      simp [getReservations, hc, hlt]
    · intro hge
      simp [getReservations, hc, hge]
  · intro s s1 now1 now2 remote1 remote2 r1 f1 h
    have hc : s1.transactionsCache = some r1 := by
      have hx := getTransactions_cache_result s now1 remote1
      rw [h] at hx
      exact hx
    constructor
    · intro hlt
      have hv : isCacheValid s1 now2 = true := by
        unfold isCacheValid
        rw [hc]
        simp [hlt]
      simp [getTransactions, hv, hc]
    · intro hge
      have hv : isCacheValid s1 now2 = false := by
        unfold isCacheValid
        simp [hge]
      simp only [getTransactions, hv, Bool.false_eq_true, if_false]

/-- Witness for the C4 theorem: a cold fetch at time 0 followed by a read at
time 1000 serves the cache without fetching. -/
theorem cache_get_ttl_behavior_witness :
    getProperties false { propertiesCache := some [propertyOne], cacheTimestamp := 0 } 1000 []
      = ([propertyOne], { propertiesCache := some [propertyOne], cacheTimestamp := 0 }, false) :=
  ((cache_get_ttl_behavior.1 invalidatePropertiesCache
      { propertiesCache := some [propertyOne], cacheTimestamp := 0 }
      0 1000 [propertyOne] [] [propertyOne] true rfl).1 (by decide))

/-- C5: for each cached entity kind, every successful create, update and
delete leaves the invalidated (cleared) cache state regardless of the prior
cache contents and age, so the next get performs a fresh remote fetch; a
failed remote write propagates the store's error message and leaves the
cache state untouched. -/
theorem mutations_invalidate_cache :
    (∀ (s : PropertiesCacheState) (docId : String) (msg : String),
      createProperty s (.ok docId) = (.ok docId, invalidatePropertiesCache) ∧
      createProperty s (.error msg) = (.error msg, s) ∧
      updateProperty s (.ok ()) = (.ok (), invalidatePropertiesCache) ∧
      updateProperty s (.error msg) = (.error msg, s) ∧
      deleteProperty s (.ok ()) = (.ok (), invalidatePropertiesCache) ∧
      deleteProperty s (.error msg) = (.error msg, s)) ∧
    (∀ (s : TransactionsCacheState) (docId : String) (msg : String),
      createTransaction s (.ok docId) = (.ok docId, invalidateTransactionsCache) ∧
      createTransaction s (.error msg) = (.error msg, s) ∧
      updateTransaction s (.ok ()) = (.ok (), invalidateTransactionsCache) ∧
      updateTransaction s (.error msg) = (.error msg, s) ∧
      deleteTransaction s (.ok ()) = (.ok (), invalidateTransactionsCache) ∧
      deleteTransaction s (.error msg) = (.error msg, s)) ∧
    (∀ (s : ReservationsCacheState) (docId : String) (msg : String),
      createReservation s (.ok docId) = (.ok docId, invalidateReservationsCache) ∧
      createReservation s (.error msg) = (.error msg, s) ∧
      updateReservation s (.ok ()) = (.ok (), invalidateReservationsCache) ∧
      updateReservation s (.error msg) = (.error msg, s) ∧
      updateReservationStatus s (.ok ()) = (.ok (), invalidateReservationsCache) ∧
      updateReservationStatus s (.error msg) = (.error msg, s) ∧
      deleteReservation s (.ok ()) = (.ok (), invalidateReservationsCache) ∧
      deleteReservation s (.error msg) = (.error msg, s)) ∧
    (∀ (now : Nat) (remote : List Property),
      getProperties false invalidatePropertiesCache now remote =
        (remote, { propertiesCache := some remote, cacheTimestamp := now }, true)) ∧
    (∀ (now : Nat) (remote : List Transaction),
      getTransactions invalidateTransactionsCache now remote =
        (remote, { transactionsCache := some remote, cacheTimestamp := now }, true)) ∧
    (∀ (now : Nat) (remote : List Reservation),
      getReservations false invalidateReservationsCache now remote =
        (remote, { reservationsCache := some remote, cacheTimestamp := now }, true)) := by
  refine ⟨?_, ?_, ?_, ?_, ?_, ?_⟩
  · intro s docId msg
    exact ⟨rfl, rfl, rfl, rfl, rfl, rfl⟩
  · intro s docId msg
    exact ⟨rfl, rfl, rfl, rfl, rfl, rfl⟩
  · intro s docId msg
    exact ⟨rfl, rfl, rfl, rfl, rfl, rfl, rfl, rfl⟩
  · intro now remote
    rfl
  · intro now remote
    rfl
  · intro now remote
    rfl

/-! ## Lemmas about decimal printing, parsing and splitting -/

/-- Digit characters parse back to their value. -/
lemma digitVal_digitChar : ∀ d, d < 10 → digitVal (digitChar d) = some d := by decide

/-- The hyphen is not a digit character. -/
lemma hyphen_ne_digitChar : ∀ d, d < 10 → ('-' : Char) ≠ digitChar d := by decide

/-- The letter T is not a digit character. -/
lemma tee_ne_digitChar : ∀ d, d < 10 → ('T' : Char) ≠ digitChar d := by decide

/-- Any surplus fuel and accumulator factor through printNat. -/
lemma printNatAux_append : ∀ (n fuel : Nat) (acc : List Char), n < fuel →
    printNatAux fuel n acc = printNat n ++ acc := by
  intro n
  induction n using Nat.strong_induction_on with
  | _ n ih =>
    intro fuel acc hf
    cases fuel with
    | zero => omega
    | succ f =>
        by_cases h10 : n < 10
        · simp [printNatAux, printNat, h10]
        · have hdiv : n / 10 < n := Nat.div_lt_self (by omega) (by omega)
          simp only [printNatAux, if_neg h10]
          rw [ih (n / 10) hdiv f (digitChar (n % 10) :: acc) (by omega)]
          conv_rhs => rw [printNat]
          simp only [printNatAux, if_neg h10]
          rw [ih (n / 10) hdiv n (digitChar (n % 10) :: []) (by omega)]
          simp

/-- The defining recurrence of printNat. -/
lemma printNat_unfold (n : Nat) :
    printNat n = if n < 10 then [digitChar n] else printNat (n / 10) ++ [digitChar (n % 10)] := by
  by_cases h10 : n < 10
  · simp [printNat, printNatAux, h10]
  · have hdiv : n / 10 < n := Nat.div_lt_self (by omega) (by omega)
    conv_lhs => rw [printNat]
    simp only [printNatAux, if_neg h10]
    rw [printNatAux_append (n / 10) n (digitChar (n % 10) :: []) (by omega)]

/-- Parsing distributes over append once the prefix parses. -/
lemma parseDigitsAux_append : ∀ (A B : List Char) (acc v : Nat),
    parseDigitsAux A acc = some v → parseDigitsAux (A ++ B) acc = parseDigitsAux B v := by
  intro A
  induction A with
  | nil =>
      intro B acc v h
      simp only [parseDigitsAux] at h
      injection h with h2
      subst h2
      simp
  | cons ch rest ih =>
      intro B acc v h
      simp only [parseDigitsAux, List.cons_append] at h ⊢
      cases hd : digitVal ch with
      | none => rw [hd] at h; simp at h
      | some d2 => rw [hd] at h; exact ih B (acc * 10 + d2) v h

/-- Parsing the printed digits of n appends n to the accumulated value. -/
lemma parseDigitsAux_printNat : ∀ (n acc : Nat),
    parseDigitsAux (printNat n) acc = some (acc * 10 ^ (printNat n).length + n) := by
  intro n
  induction n using Nat.strong_induction_on with
  | _ n ih =>
    intro acc
    rw [printNat_unfold n]
    by_cases h10 : n < 10
    · rw [if_pos h10]
      simp only [parseDigitsAux, digitVal_digitChar n h10, List.length_cons,
        List.length_nil, pow_one]
      norm_num
    · rw [if_neg h10]
      have hdiv : n / 10 < n := Nat.div_lt_self (by omega) (by omega)
      rw [parseDigitsAux_append _ _ acc _ (ih (n / 10) hdiv acc)]
      have hm : n % 10 < 10 := Nat.mod_lt _ (by omega)
      simp only [parseDigitsAux, digitVal_digitChar _ hm, List.length_append,
        List.length_cons, List.length_nil, Option.some.injEq]
      calc (acc * 10 ^ (printNat (n / 10)).length + n / 10) * 10 + n % 10
          = acc * (10 ^ (printNat (n / 10)).length * 10) + (10 * (n / 10) + n % 10) := by
            ring
        _ = acc * 10 ^ ((printNat (n / 10)).length + 1) + n := by
            rw [Nat.div_add_mod, ← pow_succ]
        _ = acc * 10 ^ ((printNat (n / 10)).length + (0 + 1)) + n := by norm_num

/-- Printed digits parse back to their value. -/
lemma parseDigitsAux_printNat_zero (n : Nat) : parseDigitsAux (printNat n) 0 = some n := by
  rw [parseDigitsAux_printNat n 0]
  simp

/-- printNat never prints the empty string. -/
lemma printNat_ne_nil (n : Nat) : printNat n ≠ [] := by
  rw [printNat_unfold]
  by_cases h : n < 10 <;> simp [h]

/-- Every character printed by printNat is a digit character. -/
lemma printNat_mem_digitChar : ∀ (n : Nat), ∀ c ∈ printNat n, ∃ d, d < 10 ∧ c = digitChar d := by
  intro n
  induction n using Nat.strong_induction_on with
  | _ n ih =>
    intro c hc
    rw [printNat_unfold] at hc
    by_cases h10 : n < 10
    · rw [if_pos h10] at hc
      simp only [List.mem_cons, List.not_mem_nil, or_false] at hc
      exact ⟨n, h10, hc⟩
    · rw [if_neg h10] at hc
      have hdiv : n / 10 < n := Nat.div_lt_self (by omega) (by omega)
      rcases List.mem_append.mp hc with h | h
      · exact ih (n / 10) hdiv c h
      · simp only [List.mem_cons, List.not_mem_nil, or_false] at h
        exact ⟨n % 10, Nat.mod_lt _ (by omega), h⟩

/-- Every character of a zero-padded printNat is a digit character. -/
lemma padStart2_printNat_mem_digitChar (n : Nat) :
    ∀ c ∈ padStart2 (printNat n), ∃ d, d < 10 ∧ c = digitChar d := by
  intro c hc
  rcases List.mem_append.mp hc with h | h
  · exact ⟨0, by omega, by rw [List.eq_of_mem_replicate h]; decide⟩
  · exact printNat_mem_digitChar n c h

/-- No hyphen inside printed digits. -/
lemma hyphen_not_mem_printNat (n : Nat) : ('-' : Char) ∉ printNat n := by
  intro hmem
  obtain ⟨d, hd, hEq⟩ := printNat_mem_digitChar n _ hmem
  exact hyphen_ne_digitChar d hd hEq

/-- No hyphen inside zero-padded printed digits. -/
lemma hyphen_not_mem_padStart2 (n : Nat) : ('-' : Char) ∉ padStart2 (printNat n) := by
  intro hmem
  obtain ⟨d, hd, hEq⟩ := padStart2_printNat_mem_digitChar n _ hmem
  exact hyphen_ne_digitChar d hd hEq

/-- Splitting a separator-free string yields one segment. -/
lemma splitOnCharAux_not_mem (c : Char) :
    ∀ (l acc : List Char), c ∉ l → splitOnCharAux c l acc = [acc.reverse ++ l] := by
  intro l
  induction l with
  | nil => intro acc h; simp [splitOnCharAux]
  | cons x xs ih =>
      intro acc h
      simp only [List.mem_cons, not_or] at h
      have hxc : ¬(x = c) := fun hEq => h.1 hEq.symm
      simp only [splitOnCharAux, if_neg hxc]
      rw [ih (x :: acc) h.2]
      simp

/-- Splitting past the first separator emits the first segment. -/
lemma splitOnCharAux_append_sep (c : Char) :
    ∀ (A B acc : List Char), c ∉ A →
      splitOnCharAux c (A ++ c :: B) acc = (acc.reverse ++ A) :: splitOnChar c B := by
  intro A
  induction A with
  | nil =>
      intro B acc h
      simp [splitOnCharAux, splitOnChar]
  | cons a A2 ih =>
      intro B acc h
      simp only [List.mem_cons, not_or] at h
      have hac : ¬(a = c) := fun hEq => h.1 hEq.symm
      simp only [List.cons_append, splitOnCharAux, if_neg hac, List.append_eq]
      rw [ih B (a :: acc) h.2]
      simp

/-- A separator-free string splits into itself. -/
lemma splitOnChar_not_mem (c : Char) (l : List Char) (h : c ∉ l) :
    splitOnChar c l = [l] := by
  unfold splitOnChar
  rw [splitOnCharAux_not_mem c l [] h]
  simp

/-- A string with exactly two separators splits into its three segments. -/
lemma splitOnChar_three (c : Char) (A B C : List Char)
    (hA : c ∉ A) (hB : c ∉ B) (hC : c ∉ C) :
    splitOnChar c (A ++ (c :: (B ++ (c :: C)))) = [A, B, C] := by
  have h3 : splitOnChar c C = [C] := splitOnChar_not_mem c C hC
  have h2 : splitOnChar c (B ++ (c :: C)) = B :: splitOnChar c C := by
    unfold splitOnChar
    rw [splitOnCharAux_append_sep c B C [] hB]
    simp [splitOnChar]
  unfold splitOnChar
  rw [splitOnCharAux_append_sep c A _ [] hA]
  rw [h2, h3]
  simp

/-- Number() of printed digits recovers the value. -/
lemma jsNumberOfChars_printNat (n : Nat) : jsNumberOfChars (printNat n) = some (n : Int) := by
  unfold jsNumberOfChars
  rw [if_neg (printNat_ne_nil n), parseDigitsAux_printNat_zero]
  rfl

/-- Leading zeros do not change the parsed value. -/
lemma parseDigitsAux_replicate_zero : ∀ (k : Nat) (l : List Char),
    parseDigitsAux (List.replicate k '0' ++ l) 0 = parseDigitsAux l 0 := by
  intro k
  induction k with
  | zero => intro l; simp
  | succ k2 ih =>
      intro l
      simp only [List.replicate_succ, List.cons_append, parseDigitsAux]
      rw [show digitVal '0' = some 0 by decide]
      simpa using ih l

/-- Number() of a zero-padded printNat recovers the value. -/
lemma jsNumberOfChars_padStart2 (n : Nat) :
    jsNumberOfChars (padStart2 (printNat n)) = some (n : Int) := by
  unfold jsNumberOfChars padStart2
  rw [if_neg (by simp [printNat_ne_nil n])]
  rw [parseDigitsAux_replicate_zero, parseDigitsAux_printNat_zero]
  rfl

/-- printInt of a natural is printNat. -/
lemma printInt_ofNat (n : Nat) : printInt (n : Int) = printNat n := by
  unfold printInt
  rw [if_neg (by omega)]
  simp

/-- The in-range branch of the Date constructor: for 100 ≤ y no two-digit
adjustment fires and an in-range month index and day pass through. -/
lemma jsDateCtor_inRange (y m d : Int) (hy : 100 ≤ y) (hm1 : 1 ≤ m) (hm2 : m ≤ 12)
    (hd1 : 1 ≤ d) (hd2 : d ≤ daysInMonth y m) :
    jsDateCtor y (m - 1) d = { year := y, month := m, day := d } := by
  have hfd : Int.fdiv (m - 1) 12 = 0 := by
    rw [Int.fdiv_eq_ediv _ (by norm_num)]
    exact Int.ediv_eq_zero_of_lt (by omega) (by omega)
  have hfm : Int.fmod (m - 1) 12 = m - 1 := by
    rw [Int.fmod_eq_emod _ (by norm_num)]
    exact Int.emod_eq_of_lt (by omega) (by omega)
  simp only [jsDateCtor, hfd, hfm]
  rw [if_neg (by omega : ¬(0 ≤ y ∧ y ≤ 99))]
  rw [show y + 0 = y by ring, show m - 1 + 1 = m by ring]
  rw [if_pos ⟨hd1, hd2⟩]

/-- The letter T never occurs in a date wire string. -/
lemma tee_not_mem_dateWire (y m d : Nat) : ('T' : Char) ∉ dateWire y m d := by
  unfold dateWire
  intro hmem
  rcases List.mem_append.mp hmem with h | h
  · obtain ⟨d2, hd2, hEq⟩ := printNat_mem_digitChar y _ h
    exact tee_ne_digitChar d2 hd2 hEq
  · rcases List.mem_cons.mp h with h2 | h2
    · exact absurd h2 (by decide)
    · rcases List.mem_append.mp h2 with h3 | h3
      · obtain ⟨d2, hd2, hEq⟩ := padStart2_printNat_mem_digitChar m _ h3
        exact tee_ne_digitChar d2 hd2 hEq
      · rcases List.mem_cons.mp h3 with h4 | h4
        · exact absurd h4 (by decide)
        · obtain ⟨d2, hd2, hEq⟩ := padStart2_printNat_mem_digitChar d _ h4
          exact tee_ne_digitChar d2 hd2 hEq

/-- In range, formatDateOnly emits exactly the wire form. -/
lemma formatDateOnlyOfDate_inRange (y m d : Nat) (hy : 100 ≤ y) (hm1 : 1 ≤ m)
    (hm2 : m ≤ 12) (hd1 : 1 ≤ d) (hd2 : (d : Int) ≤ daysInMonth (y : Int) (m : Int)) :
    formatDateOnlyOfDate { year := (y : Int), month := (m : Int), day := (d : Int) }
      = dateWire y m d := by
  unfold formatDateOnlyOfDate parseDateOnlyOfDate
  rw [show ({ year := (y : Int), month := (m : Int), day := (d : Int) } : CalDate).year
        = (y : Int) from rfl,
      show ({ year := (y : Int), month := (m : Int), day := (d : Int) } : CalDate).month
        = (m : Int) from rfl,
      show ({ year := (y : Int), month := (m : Int), day := (d : Int) } : CalDate).day
        = (d : Int) from rfl]
  rw [jsDateCtor_inRange (y : Int) (m : Int) (d : Int) (by exact_mod_cast hy)
      (by exact_mod_cast hm1) (by exact_mod_cast hm2) (by exact_mod_cast hd1) hd2]
  simp only [printInt_ofNat]
  unfold dateWire
  simp [List.append_assoc]

/-- In range, parseDateOnly on the wire form recovers the components. -/
lemma parseDateOnlyStr_dateWire (y m d : Nat) (hy : 100 ≤ y) (hm1 : 1 ≤ m)
    (hm2 : m ≤ 12) (hd1 : 1 ≤ d) (hd2 : (d : Int) ≤ daysInMonth (y : Int) (m : Int)) :
    parseDateOnlyStr (dateWire y m d)
      = some { year := (y : Int), month := (m : Int), day := (d : Int) } := by
  have hne : dateWire y m d ≠ [] := by
    unfold dateWire
    simp [printNat_ne_nil y]
  unfold parseDateOnlyStr
  rw [if_neg hne]
  rw [splitOnChar_not_mem 'T' _ (tee_not_mem_dateWire y m d)]
  simp only [List.headD_cons]
  unfold dateWire
  rw [splitOnChar_three '-' _ _ _ (hyphen_not_mem_printNat y)
      (hyphen_not_mem_padStart2 m) (hyphen_not_mem_padStart2 d)]
  simp only [List.getElem?_cons_zero, List.getElem?_cons_succ, jsNumberOfElem,
    jsNumberOfChars_printNat, jsNumberOfChars_padStart2]
  rw [jsDateCtor_inRange (y : Int) (m : Int) (d : Int) (by exact_mod_cast hy)
      (by exact_mod_cast hm1) (by exact_mod_cast hm2) (by exact_mod_cast hd1) hd2]

/-! ## Theorems about the calendar-date wire form -/

/-- C9 (counterexample): the round trip fails for calendar years 0 to 99
because the Date constructor reads them as 1900 + year: formatting the date
with year 50 already yields the wire form 1950-05-01 (formatDateOnly first
re-normalizes through parseDateOnly, whose constructor call applies the
two-digit-year rule), and parsing it back gives year 1950, not 50. -/
theorem calendar_roundtrip_counterexample :
    formatDateOnlyOfDate { year := 50, month := 5, day := 1 } =
      ('1' :: '9' :: '5' :: '0' :: '-' :: '0' :: '5' :: '-' :: '0' :: '1' :: []) ∧
    parseDateOnlyStr (formatDateOnlyOfDate { year := 50, month := 5, day := 1 })
      = some { year := 1950, month := 5, day := 1 } ∧
    parseDateOnlyOfDate { year := 50, month := 5, day := 1 }
      = { year := 1950, month := 5, day := 1 } ∧
    (1950 : Int) ≠ 50 := by
  refine ⟨by decide, by decide, by decide, by decide⟩

/-- C9 (amended): for every calendar date with full year at least 100 (so
the constructor's two-digit-year rule cannot fire) and in-range month and
day, parseDateOnly(formatDateOnly(d)) yields the identical calendar date,
and for every well-formed YYYY-MM-DD wire string — the wire form of an
in-range date with a four-digit year — formatDateOnly(parseDateOnly(s))
returns s itself.  The embedding reads only local calendar components and
never the timezone offset, so these identities hold under every local
offset. -/
theorem calendar_roundtrip_amended (y m d : Nat) (hy : 100 ≤ y) (hm1 : 1 ≤ m)
    (hm2 : m ≤ 12) (hd1 : 1 ≤ d) (hd2 : (d : Int) ≤ daysInMonth (y : Int) (m : Int)) :
    parseDateOnlyOfDate { year := (y : Int), month := (m : Int), day := (d : Int) }
      = { year := (y : Int), month := (m : Int), day := (d : Int) } ∧
    formatDateOnlyOfDate { year := (y : Int), month := (m : Int), day := (d : Int) }
      = dateWire y m d ∧
    parseDateOnlyStr (formatDateOnlyOfDate
        { year := (y : Int), month := (m : Int), day := (d : Int) })
      = some { year := (y : Int), month := (m : Int), day := (d : Int) } ∧
    (parseDateOnlyStr (dateWire y m d)).map formatDateOnlyOfDate
      = some (dateWire y m d) := by
  have hfmt := formatDateOnlyOfDate_inRange y m d hy hm1 hm2 hd1 hd2
  have hparse := parseDateOnlyStr_dateWire y m d hy hm1 hm2 hd1 hd2
  refine ⟨?_, hfmt, ?_, ?_⟩
  · unfold parseDateOnlyOfDate
    exact jsDateCtor_inRange (y : Int) (m : Int) (d : Int) (by exact_mod_cast hy)
      (by exact_mod_cast hm1) (by exact_mod_cast hm2) (by exact_mod_cast hd1) hd2
  · rw [hfmt, hparse]
  · rw [hparse]
    simp [hfmt]

/-- Witness for the amended C9 theorem at the leap-day 2024-02-29. -/
theorem calendar_roundtrip_amended_witness :
    parseDateOnlyStr (formatDateOnlyOfDate { year := 2024, month := 2, day := 29 })
      = some { year := 2024, month := 2, day := 29 } :=
  (calendar_roundtrip_amended 2024 2 29 (by norm_num) (by norm_num) (by norm_num)
    (by norm_num) (by decide)).2.2.1

/-! ## Theorems about the partial-update patch builders -/

/-- C10 (counterexample): in updateReservation a date field supplied with a
falsy value is not omitted from the patch — the spread copies it in raw and
the truthiness check only skips the Timestamp conversion: with
checkIn supplied falsy the assembled patch still carries a checkIn cell. -/
theorem partial_update_claim_counterexample :
    (updateReservationData
        { emptyReservationUpdate with checkIn := some .undef }).checkIn
      = some .rawFalsy ∧
    (updateReservationData
        { emptyReservationUpdate with checkIn := some .undef }).checkIn ≠ none := by
  exact ⟨rfl, by decide⟩

/-- C10 (amended): updateAccessCode drops falsy-supplied fields — a supplied
empty propertyId or code is omitted from the patch and the stored column
keeps its previous value, absent keys leave their columns unchanged, and
only description distinguishes undefined from the empty string (a supplied
empty description is written).  updateReservation instead spreads every
supplied field into the patch: its truthiness checks on checkIn/checkOut
only gate the Timestamp conversion, so a truthy date is converted, a
falsy-supplied date is included raw rather than omitted, and only an absent
key is omitted. -/
theorem partial_update_truthiness_amended (u : AccessCodeUpdate)
    (v : ReservationUpdate) (r : AccessCodeRow) :
    (u.code = some "" → (updateAccessCodeData u).code = none ∧
      (applyAccessCodePatch r (updateAccessCodeData u)).code = r.code) ∧
    (u.propertyId = some "" → (updateAccessCodeData u).property_id = none ∧
      (applyAccessCodePatch r (updateAccessCodeData u)).property_id = r.property_id) ∧
    (u.code = none → (applyAccessCodePatch r (updateAccessCodeData u)).code = r.code) ∧
    (u.propertyId = none →
      (applyAccessCodePatch r (updateAccessCodeData u)).property_id = r.property_id) ∧
    (u.description = none →
      (applyAccessCodePatch r (updateAccessCodeData u)).description = r.description) ∧
    (u.startDate = none →
      (applyAccessCodePatch r (updateAccessCodeData u)).start_date = r.start_date) ∧
    (u.endDate = none →
      (applyAccessCodePatch r (updateAccessCodeData u)).end_date = r.end_date) ∧
    (∀ c, c ≠ "" → u.code = some c →
      (applyAccessCodePatch r (updateAccessCodeData u)).code = c) ∧
    (u.description = some "" →
      (applyAccessCodePatch r (updateAccessCodeData u)).description = "") ∧
    (∀ dd, v.checkIn = some (.val dd) →
      (updateReservationData v).checkIn = some (.timestamp dd)) ∧
    (v.checkIn = some .undef → (updateReservationData v).checkIn = some .rawFalsy) ∧
    (v.checkIn = none → (updateReservationData v).checkIn = none) ∧
    (updateReservationData v).guestName = v.guestName ∧
    (updateReservationData v).notes = v.notes ∧
    (updateReservationData v).updatedAtSet = true := by
  refine ⟨?_, ?_, ?_, ?_, ?_, ?_, ?_, ?_, ?_, ?_, ?_, ?_, rfl, rfl, rfl⟩
  · intro h
    simp [updateAccessCodeData, applyAccessCodePatch, h]
  · intro h
    simp [updateAccessCodeData, applyAccessCodePatch, h]
  · intro h
    simp [updateAccessCodeData, applyAccessCodePatch, h]
  · intro h
    simp [updateAccessCodeData, applyAccessCodePatch, h]
  · intro h
    simp [updateAccessCodeData, applyAccessCodePatch, h]
  · intro h
    simp [updateAccessCodeData, applyAccessCodePatch, h]
  · intro h
    simp [updateAccessCodeData, applyAccessCodePatch, h]
  · intro c hc h
    simp [updateAccessCodeData, applyAccessCodePatch, h, hc]
  · intro h
    simp [updateAccessCodeData, applyAccessCodePatch, h]
  · intro dd h
    simp [updateReservationData, h]
  · intro h
    simp [updateReservationData, h]
  · intro h
    simp [updateReservationData, h]

/-- Witness for the amended C10 theorem: a supplied empty code is dropped
and the stored code survives. -/
theorem partial_update_truthiness_amended_witness :
    (applyAccessCodePatch
      { property_id := "p1", code := "1234", description := "porta"
        start_date := dateWire 2024 1 1, end_date := dateWire 2024 2 1 }
      (updateAccessCodeData { emptyAccessCodeUpdate with code := some "" })).code
      = "1234" :=
  ((partial_update_truthiness_amended
      { emptyAccessCodeUpdate with code := some "" }
      emptyReservationUpdate
      { property_id := "p1", code := "1234", description := "porta"
        start_date := dateWire 2024 1 1, end_date := dateWire 2024 2 1 }).1 rfl).2

end PropertyHub
